import Mathlib

/-!
# Verification of the slogemail handler core

A shallow embedding of `handler.go` (package `slogemail`): the synchronous
`EmailHandler`, its constructor `NewHandler`, the dispatch method `Handle`,
the scoping methods `WithAttrs`/`WithGroup`, and the helper `prettifyJSON`,
together with models of the external collaborators they delegate to
(the base `log/slog` renderer, `fmt.Fprintf` on the output writer,
`encoding/json`'s `Indent`, `slog.Level.String`, and the go-mail client).

External effects are made explicit: the shared render buffer, the writes
performed on the output stream, and the emails handed to the delivery
function are threaded through an explicit state `HState`; the outcome of a
call is `HRes` (`ok`, an error, or a Go runtime panic from invoking a nil
function value); the sequential order of lock, render, write and send inside
one `Handle` call is recorded as a trace of events `Ev`.
-/

namespace Slogemail

/-- Go `error` values, modelled by their message. -/
abbrev GoError := String

/-- An `slog.Attr`, opaque to this handler: it only forwards attrs to the
base renderer. -/
abbrev Attr := String

/-- One log record (`slog.Record`): the handler reads only its level; the
`payload` field stands for the rest of the record, which the handler passes
through to the external renderer and to the user callbacks unchanged. -/
structure Record where
  level : Int
  payload : Nat
deriving DecidableEq, Repr

/-- An email handed to the delivery function: the arguments of one
`sendEmail(ctx, from, to, subject, body)` invocation (the opaque context is
omitted). -/
structure Email where
  fromAddr : String
  toAddrs : List String
  subject : String
  body : String
deriving DecidableEq, Repr

/-- `SendEmailFunc`: user delivery callback `(from, to, subject, body) → error`
(the opaque `context.Context` argument is omitted). -/
abbrev SendEmailFunc := String → List String → String → String → Option GoError

/-- `GetSubjectFunc`: `(record, logOutput) → subject`. -/
abbrev GetSubjectFunc := Record → String → String

/-- `GetBodyFunc`: `(record, logOutput) → body`. -/
abbrev GetBodyFunc := Record → String → String

/-- Model of the external base renderer (`slog`'s `TextHandler` or
`JSONHandler`): the handler only stores it, swaps it for the result of its
`WithAttrs`/`WithGroup`, and invokes it; so it is modelled by the scoping
state it has accumulated. What text it renders is supplied by an `Env`
oracle. -/
structure Base where
  isJSON : Bool
  attrs : List Attr
  groups : List String
deriving DecidableEq, Repr

/-- External `slog.Handler.WithAttrs`: the derived renderer bound with the
additional attributes. -/
def Base.withAttrs (b : Base) (as : List Attr) : Base :=
  { b with attrs := b.attrs ++ as }

/-- External `slog.Handler.WithGroup`: the derived renderer with the group
opened. -/
def Base.withGroup (b : Base) (g : String) : Base :=
  { b with groups := b.groups ++ [g] }

/-- `SMTPConnectionInfo` from `handler.go`. -/
structure SMTPConnectionInfo where
  Host : String
  Port : Int
  Username : String
  Password : String
deriving DecidableEq, Repr

/-- Opaque stand-in for a `*mail.Client` produced by the external go-mail
library. -/
abbrev MailClient := Nat

/-- `Mailer` from `mailer.go`: wraps the transport client. -/
structure Mailer where
  client : MailClient
deriving DecidableEq, Repr

/-- Outcome of the external `mail.NewClient` call, supplied as a parameter
`newClient` to `NewMailer`. -/
abbrev NewClientFn := String → Int → String → String → Except GoError MailClient

/-- `NewMailer` from `mailer.go`: builds a client via the external
`mail.NewClient` and wraps it; propagates the construction error. -/
def NewMailer (newClient : NewClientFn) (smtpHost : String) (smtpPort : Int)
    (username : String) (password : String) : Except GoError Mailer :=
  match newClient smtpHost smtpPort username password with
  | Except.error e => Except.error e
  | Except.ok c => Except.ok ⟨c⟩

/-- `EmailHandlerOpts` from `handler.go`. `SendEmail`, `GetSubject` and
`GetBody` are nilable function fields, so they are `Option`s here. -/
structure EmailHandlerOpts where
  FromAddr : String
  ToAddrs : List String
  JSON : Bool
  Level : Int
  SendEmail : Option SendEmailFunc
  GetSubject : Option GetSubjectFunc
  GetBody : Option GetBodyFunc
  ConnectionInfo : SMTPConnectionInfo

/-- The `EmailHandler` struct (its configuration part; the mutable buffer
and the output stream live in `HState`, and the mutex is reflected in the
event trace of `Handle`). `sendEmail` is a nilable function field: after a
failed `NewMailer` inside `NewHandler` it remains `none`, and Go panics if
`Handle` then invokes it. -/
structure EHData where
  baseHandler : Base
  emailLevel : Int
  sendEmail : Option SendEmailFunc
  getSubject : Option GetSubjectFunc
  getBody : Option GetBodyFunc
  fromAddr : String
  toAddrs : List String
  json : Bool
  defaultMailer : Option Mailer

/-- `NewHandler` from `handler.go`: builds the handler struct, then either
installs the user `SendEmail` or constructs the default `Mailer`. On mailer
construction failure it returns the handler built so far (with
`sendEmail = none`) together with the error. `newClient` stands for the
external `mail.NewClient`; `transport` stands for the closure
`handler.sendEmailDefault`, the bound `Mailer.SendPlaintextMessage`. -/
def NewHandler (emailOpts : EmailHandlerOpts) (newClient : NewClientFn)
    (transport : Mailer → SendEmailFunc) : EHData × Option GoError :=
  let handler : EHData :=
    { baseHandler := ⟨emailOpts.JSON, [], []⟩
      emailLevel := emailOpts.Level
      sendEmail := none
      getSubject := emailOpts.GetSubject
      getBody := emailOpts.GetBody
      fromAddr := emailOpts.FromAddr
      toAddrs := emailOpts.ToAddrs
      json := emailOpts.JSON
      defaultMailer := none }
  match emailOpts.SendEmail with
  | some f => ({ handler with sendEmail := some f }, none)
  | none =>
    match NewMailer newClient emailOpts.ConnectionInfo.Host
        emailOpts.ConnectionInfo.Port emailOpts.ConnectionInfo.Username
        emailOpts.ConnectionInfo.Password with
    | Except.error e => (handler, some e)
    | Except.ok m =>
      ({ handler with defaultMailer := some m, sendEmail := some (transport m) },
        none)

/-! ## Model of `encoding/json.Indent`

`prettifyJSON` in `handler.go` delegates to the external
`json.Indent(&buf, []byte(str), "", "    ")`. `Indent` validates the input
and reprints it with each element on its own line, indented by one copy of
the indent string (four spaces here) per nesting level, keys followed by
`": "`, empty objects and arrays kept as `{}`/`[]`, scalar tokens kept
verbatim. We model it by parsing into a token tree that keeps the raw
lexemes and reprinting with that layout; malformed input is an error. -/

mutual
inductive JVal where
  | scalar (raw : String)
  | arr (items : JList)
  | obj (fields : JFields)
inductive JList where
  | nil
  | cons (v : JVal) (rest : JList)
inductive JFields where
  | nil
  | cons (key : String) (v : JVal) (rest : JFields)
end

/-- Whitespace accepted between JSON tokens. -/
def isWS (c : Char) : Bool :=
  c = ' ' || c = '\t' || c = '\n' || c = '\r'

/-- Drop leading inter-token whitespace. -/
def skipWS : List Char → List Char
  | [] => []
  | c :: cs => if isWS c then skipWS cs else c :: cs

/-- Scan the remainder of a string literal after the opening quote; returns
the characters up to (not including) the closing quote, keeping escape
sequences raw, and the input after the closing quote. -/
def strTail : List Char → Option (List Char × List Char)
  | [] => none
  | '"' :: rest => some ([], rest)
  | '\\' :: c :: rest =>
    match strTail rest with
    | none => none
    | some (body, after) => some ('\\' :: c :: body, after)
  | c :: rest =>
    match strTail rest with
    | none => none
    | some (body, after) => some (c :: body, after)

/-- Characters that may occur in a JSON number token. -/
def isNumChar (c : Char) : Bool :=
  c.isDigit || c = '-' || c = '+' || c = '.' || c = 'e' || c = 'E'

mutual
/-- Parse one JSON value; returns the value and the unconsumed input.
Fuel-indexed to bound recursion. -/
def parseVal (fuel : Nat) (l : List Char) : Option (JVal × List Char) :=
  match fuel with
  | 0 => none
  | fuel + 1 =>
    match skipWS l with
    | [] => none
    | c :: cs =>
      if c = '"' then
        match strTail cs with
        | none => none
        | some (body, rest) =>
          some (JVal.scalar ("\"" ++ String.mk body ++ "\""), rest)
      else if c = '\x7b' then
        match skipWS cs with
        | '\x7d' :: rest => some (JVal.obj JFields.nil, rest)
        | rest =>
          match parseFields fuel rest with
          | none => none
          | some (fs, rest2) => some (JVal.obj fs, rest2)
      else if c = '[' then
        match skipWS cs with
        | ']' :: rest => some (JVal.arr JList.nil, rest)
        | rest =>
          match parseItems fuel rest with
          | none => none
          | some (xs, rest2) => some (JVal.arr xs, rest2)
      else if isNumChar c then
        match List.span isNumChar (c :: cs) with
        | (tok, rest) => some (JVal.scalar (String.mk tok), rest)
      else if c.isAlpha then
        match List.span Char.isAlpha (c :: cs) with
        | (tok, rest) =>
          let w := String.mk tok
          if w = "true" || w = "false" || w = "null" then
            some (JVal.scalar w, rest)
          else none
      else none

/-- Parse the items of a non-empty array up to and including `]`. -/
def parseItems (fuel : Nat) (l : List Char) : Option (JList × List Char) :=
  match fuel with
  | 0 => none
  | fuel + 1 =>
    match parseVal fuel l with
    | none => none
    | some (v, rest) =>
      match skipWS rest with
      | ',' :: rest2 =>
        match parseItems fuel rest2 with
        | none => none
        | some (xs, rest3) => some (JList.cons v xs, rest3)
      | ']' :: rest2 => some (JList.cons v JList.nil, rest2)
      | _ => none

/-- Parse the fields of a non-empty object up to and including the closing
brace. -/
def parseFields (fuel : Nat) (l : List Char) : Option (JFields × List Char) :=
  match fuel with
  | 0 => none
  | fuel + 1 =>
    match skipWS l with
    | '"' :: cs =>
      match strTail cs with
      | none => none
      | some (body, rest) =>
        match skipWS rest with
        | ':' :: rest2 =>
          match parseVal fuel rest2 with
          | none => none
          | some (v, rest3) =>
            let key := "\"" ++ String.mk body ++ "\""
            match skipWS rest3 with
            | ',' :: rest4 =>
              match parseFields fuel rest4 with
              | none => none
              | some (fs, rest5) => some (JFields.cons key v fs, rest5)
            | '\x7d' :: rest4 => some (JFields.cons key v JFields.nil, rest4)
            | _ => none
        | _ => none
    | _ => none
end

/-- Parse a whole JSON document: one value with only whitespace around it. -/
def parseJSON (s : String) : Except GoError JVal :=
  match parseVal (2 * s.length + 2) s.data with
  | none => Except.error "invalid JSON"
  | some (v, rest) =>
    match skipWS rest with
    | [] => Except.ok v
    | _ => Except.error "invalid JSON"

/-- `n` copies of the four-space indent unit passed to `json.Indent`. -/
def jIndent : Nat → String
  | 0 => ""
  | n + 1 => jIndent n ++ "    "

mutual
/-- Reprint a value at the given nesting depth, `json.Indent` layout. -/
def renderJ (depth : Nat) : JVal → String
  | JVal.scalar raw => raw
  | JVal.arr JList.nil => "[]"
  | JVal.arr (JList.cons x xs) =>
    "[\n" ++ renderItems depth (JList.cons x xs) ++ "\n" ++ jIndent depth ++ "]"
  | JVal.obj JFields.nil => "\x7b\x7d"
  | JVal.obj (JFields.cons k v fs) =>
    "\x7b\n" ++ renderFields depth (JFields.cons k v fs) ++ "\n" ++
      jIndent depth ++ "\x7d"

/-- Reprint array items, one per line, comma separated. -/
def renderItems (depth : Nat) : JList → String
  | JList.nil => ""
  | JList.cons x JList.nil => jIndent (depth + 1) ++ renderJ (depth + 1) x
  | JList.cons x (JList.cons y ys) =>
    jIndent (depth + 1) ++ renderJ (depth + 1) x ++ ",\n" ++
      renderItems depth (JList.cons y ys)

/-- Reprint object fields, one per line, `key: value`, comma separated. -/
def renderFields (depth : Nat) : JFields → String
  | JFields.nil => ""
  | JFields.cons k v JFields.nil =>
    jIndent (depth + 1) ++ k ++ ": " ++ renderJ (depth + 1) v
  | JFields.cons k v (JFields.cons k2 v2 fs) =>
    jIndent (depth + 1) ++ k ++ ": " ++ renderJ (depth + 1) v ++ ",\n" ++
      renderFields depth (JFields.cons k2 v2 fs)
end

/-- `prettifyJSON` from `handler.go`: indent the input with prefix `""` and
indent `"    "` via (the model of) `json.Indent`; an error on malformed
input. -/
def prettifyJSON (str : String) : Except GoError String :=
  match parseJSON str with
  | Except.error e => Except.error e
  | Except.ok v => Except.ok (renderJ 0 v)

/-! ## Model of `slog.Level.String` -/

/-- The helper closure inside `slog.Level.String`: the base name, with the
offset appended in `%+d` form when it is nonzero. -/
def levelStr (base : String) (val : Int) : String :=
  if val = 0 then base
  else if 0 ≤ val then base ++ "+" ++ toString val
  else base ++ toString val

/-- External `slog.Level.String`: name of the nearest level at or below,
plus offset (`DEBUG` = -4, `INFO` = 0, `WARN` = 4, `ERROR` = 8). -/
def levelString (l : Int) : String :=
  if l < 0 then levelStr "DEBUG" (l + 4)
  else if l < 4 then levelStr "INFO" l
  else if l < 8 then levelStr "WARN" (l - 4)
  else levelStr "ERROR" (l - 8)

/-! ## The dispatch method `Handle` -/

/-- The mutable surroundings of one handler: the shared render buffer
`buf` (contents of `h.buf`), the sequence of writes performed on the output
writer `out` (one entry per `fmt.Fprintf` call, the formatted string), and
the sequence of invocations of the delivery function `sent` (one `Email`
per call, in order). -/
structure HState where
  buf : String
  out : List String
  sent : List Email
deriving DecidableEq, Repr

/-- Behaviour of the external collaborators during a `Handle` call:
`render b r` is the pair of (bytes the base renderer `b` appends to the
shared buffer for record `r`, error returned by `baseHandler.Handle`);
`writeErr w` is the error returned by `fmt.Fprintf` for the formatted
string `w` (the write attempt is recorded either way). -/
structure Env where
  render : Base → Record → String × Option GoError
  writeErr : String → Option GoError

/-- Result of a `Handle` call: normal return (`ok` / `err`), or the Go
runtime panic raised by invoking a nil `sendEmail` function value. -/
inductive HRes where
  | ok
  | err (e : GoError)
  | panicNilSend
deriving DecidableEq, Repr

/-- Events inside one `Handle` call, in program order: mutex acquire and
release, the base-render call, the `Fprintf` on the output writer, and the
invocation of the delivery function. -/
inductive Ev where
  | lock
  | unlock
  | renderEv
  | writeEv
  | sendEv
deriving DecidableEq, Repr

/-- Outcome of one `Handle` call: returned value, post-state, and the event
trace. -/
structure HOut where
  res : HRes
  st : HState
  tr : List Ev
deriving Repr

/-- Subject derivation, `handler.go` lines 139–143: the `GetSubject`
override, else `r.Level.String()`. -/
def deriveSubject (h : EHData) (r : Record) (text : String) : String :=
  match h.getSubject with
  | some f => f r text
  | none => levelString r.level

/-- Body derivation, `handler.go` lines 145–156: the `GetBody` override,
else `prettifyJSON(text)` when the handler is in JSON mode, else `text`. -/
def deriveBody (h : EHData) (r : Record) (text : String) : Except GoError String :=
  match h.getBody with
  | some f => Except.ok (f r text)
  | none => if h.json then prettifyJSON text else Except.ok text

/-- `EmailHandler.Handle` from `handler.go`: lock the mutex (released by
`defer` on every exit, panic included); render into the shared buffer and
return a render error at once; snapshot the buffer as `text` and reset the
buffer; `fmt.Fprintf(h.out, "MY: %s", text)` and return a write error at
once; if the record's level reaches `emailLevel`, derive subject and body
(a body-derivation error is returned at once), then invoke `sendEmail` —
a nil `sendEmail` panics here — and return its error, else nil. -/
def Handle (h : EHData) (env : Env) (r : Record) (s : HState) : HOut :=
  let rr := env.render h.baseHandler r
  let buf1 := s.buf ++ rr.1
  match rr.2 with
  | some e => ⟨HRes.err e, { s with buf := buf1 }, [Ev.lock, Ev.renderEv, Ev.unlock]⟩
  | none =>
    let text := buf1
    let written := "MY: " ++ text
    let s2 : HState := ⟨"", s.out ++ [written], s.sent⟩
    match env.writeErr written with
    | some e => ⟨HRes.err e, s2, [Ev.lock, Ev.renderEv, Ev.writeEv, Ev.unlock]⟩
    | none =>
      if h.emailLevel ≤ r.level then
        let subject := deriveSubject h r text
        match deriveBody h r text with
        | Except.error e =>
          ⟨HRes.err e, s2, [Ev.lock, Ev.renderEv, Ev.writeEv, Ev.unlock]⟩
        | Except.ok body =>
          match h.sendEmail with
          | none =>
            ⟨HRes.panicNilSend, s2, [Ev.lock, Ev.renderEv, Ev.writeEv, Ev.unlock]⟩
          | some send =>
            let s3 : HState :=
              ⟨s2.buf, s2.out, s2.sent ++ [⟨h.fromAddr, h.toAddrs, subject, body⟩]⟩
            match send h.fromAddr h.toAddrs subject body with
            | some e =>
              ⟨HRes.err e, s3,
                [Ev.lock, Ev.renderEv, Ev.writeEv, Ev.sendEv, Ev.unlock]⟩
            | none =>
              ⟨HRes.ok, s3,
                [Ev.lock, Ev.renderEv, Ev.writeEv, Ev.sendEv, Ev.unlock]⟩
      else ⟨HRes.ok, s2, [Ev.lock, Ev.renderEv, Ev.writeEv, Ev.unlock]⟩

/-! ## `WithAttrs` / `WithGroup` and the heap of handler objects

Go's `WithAttrs`/`WithGroup` receive a pointer `h *EmailHandler`, assign
`h.baseHandler = h.baseHandler.WithAttrs(attrs)` through it, and return the
same pointer. To keep that aliasing observable we model the heap of handler
objects as a map from pointers to `EHData`. -/

/-- A pointer to an `EmailHandler` object. -/
abbrev Ptr := Nat

/-- The heap of `EmailHandler` objects. -/
abbrev HHeap := Ptr → EHData

/-- `EmailHandler.WithAttrs`: mutates `baseHandler` in place through the
receiver pointer and returns that same pointer. -/
def WithAttrsGo (hp : HHeap) (p : Ptr) (attrs : List Attr) : Ptr × HHeap :=
  (p, fun q =>
    if q = p then { hp p with baseHandler := (hp p).baseHandler.withAttrs attrs }
    else hp q)

/-- `EmailHandler.WithGroup`: mutates `baseHandler` in place through the
receiver pointer and returns that same pointer. -/
def WithGroupGo (hp : HHeap) (p : Ptr) (name : String) : Ptr × HHeap :=
  (p, fun q =>
    if q = p then { hp p with baseHandler := (hp p).baseHandler.withGroup name }
    else hp q)

/-! ## Concrete fixtures used to instantiate the theorems -/

/-- A delivery function that always succeeds. -/
def sendOK : SendEmailFunc := fun _ _ _ _ => none

/-- A delivery function that always fails with a transport error. -/
def sendFail : SendEmailFunc := fun _ _ _ _ => some "smtp down"

/-- A fresh text-mode base renderer. -/
def baseText : Base := ⟨false, [], []⟩

/-- A fresh JSON-mode base renderer. -/
def baseJSON : Base := ⟨true, [], []⟩

/-- A text-format handler, email threshold 8 (`ERROR`), defaults for
subject and body, with a working delivery function. -/
def hText : EHData :=
  ⟨baseText, 8, some sendOK, none, none, "from@example.com",
    ["one@example.com", "two@example.com"], false, none⟩

/-- A JSON-format handler, email threshold 8 (`ERROR`), defaults for
subject and body, with a working delivery function. -/
def hJson : EHData :=
  ⟨baseJSON, 8, some sendOK, none, none, "from@example.com",
    ["one@example.com", "two@example.com"], true, none⟩

/-- `hText` with a delivery function that fails. -/
def hTextFail : EHData := { hText with sendEmail := some sendFail }

/-- A record below the email threshold (level 0 = `INFO`). -/
def rInfo : Record := ⟨0, 0⟩

/-- A record at the email threshold (level 8 = `ERROR`). -/
def rError : Record := ⟨8, 0⟩

/-- A level-8 record whose payload makes `envMixed` fail its render. -/
def rErrorBad : Record := ⟨8, 1⟩

/-- The state right after `NewHandler`: empty buffer, nothing written,
nothing sent. -/
def s0 : HState := ⟨"", [], []⟩

/-- Collaborators: every record renders as `"hello\n"`, all writes
succeed. -/
def envHello : Env := ⟨fun _ _ => ("hello\n", none), fun _ => none⟩

/-- Collaborators: every record renders as the JSON `{"msg":"db down"}`,
all writes succeed. -/
def envDb : Env :=
  ⟨fun _ _ => ("\x7b\"msg\":\"db down\"\x7d", none), fun _ => none⟩

/-- Collaborators: every record renders as the malformed JSON
`not json`, all writes succeed. -/
def envNotJson : Env := ⟨fun _ _ => ("not json", none), fun _ => none⟩

/-- Collaborators: records with payload 1 fail to render after leaving the
bytes `"PART"` in the shared buffer; other records render as `"hello\n"`;
all writes succeed. -/
def envMixed : Env :=
  ⟨fun _ r =>
      if r.payload = 1 then ("PART", some "render failed")
      else ("hello\n", none),
    fun _ => none⟩

/-- Collaborators: rendering succeeds with `"hello\n"`, every write on the
output stream fails. -/
def envWriteFail : Env :=
  ⟨fun _ _ => ("hello\n", none), fun _ => some "broken pipe"⟩

/-- Options with no `SendEmail` callback and an empty SMTP host. -/
def optsNoSend : EmailHandlerOpts :=
  ⟨"from@example.com", ["one@example.com"], false, 8, none, none, none,
    ⟨"", 587, "user", "pwd"⟩⟩

/-- Model of `mail.NewClient`: fails when no host is given. -/
def newClientStub : NewClientFn := fun host _ _ _ =>
  if host = "" then Except.error "dial: no host set" else Except.ok 0

/-- Stand-in for the bound `Mailer.SendPlaintextMessage` transport. -/
def transportStub : Mailer → SendEmailFunc := fun _ => fun _ _ _ _ => none

/-- The spec's reading of the lock discipline: no invocation of the
delivery function happens between a lock acquire and the matching release,
i.e. the mutex is never held while the mail transport executes. -/
def sendLockFree (tr : List Ev) : Prop :=
  ∀ i : Fin tr.length, tr.get i = Ev.sendEv →
    ¬ ∃ j k : Fin tr.length, j.val < i.val ∧ i.val < k.val ∧
      tr.get j = Ev.lock ∧ tr.get k = Ev.unlock

/-! ## Characterization of the branches of `Handle` -/

theorem handle_render_err (h : EHData) (env : Env) (r : Record) (s : HState)
    (e : GoError) (h1 : (env.render h.baseHandler r).2 = some e) :
    Handle h env r s =
      ⟨HRes.err e, { s with buf := s.buf ++ (env.render h.baseHandler r).1 },
        [Ev.lock, Ev.renderEv, Ev.unlock]⟩ := by
  simp only [Handle, h1]

theorem handle_write_err (h : EHData) (env : Env) (r : Record) (s : HState)
    (e : GoError) (h1 : (env.render h.baseHandler r).2 = none)
    (h2 : env.writeErr ("MY: " ++ (s.buf ++ (env.render h.baseHandler r).1)) = some e) :
    Handle h env r s =
      ⟨HRes.err e,
        ⟨"", s.out ++ ["MY: " ++ (s.buf ++ (env.render h.baseHandler r).1)], s.sent⟩,
        [Ev.lock, Ev.renderEv, Ev.writeEv, Ev.unlock]⟩ := by
  simp only [Handle, h1, h2]

theorem handle_below (h : EHData) (env : Env) (r : Record) (s : HState)
    (h1 : (env.render h.baseHandler r).2 = none)
    (h2 : env.writeErr ("MY: " ++ (s.buf ++ (env.render h.baseHandler r).1)) = none)
    (h3 : r.level < h.emailLevel) :
    Handle h env r s =
      ⟨HRes.ok,
        ⟨"", s.out ++ ["MY: " ++ (s.buf ++ (env.render h.baseHandler r).1)], s.sent⟩,
        [Ev.lock, Ev.renderEv, Ev.writeEv, Ev.unlock]⟩ := by
  simp only [Handle, h1, h2, if_neg (not_le.mpr h3)]

theorem handle_body_err (h : EHData) (env : Env) (r : Record) (s : HState)
    (e : GoError) (h1 : (env.render h.baseHandler r).2 = none)
    (h2 : env.writeErr ("MY: " ++ (s.buf ++ (env.render h.baseHandler r).1)) = none)
    (h3 : h.emailLevel ≤ r.level)
    (h4 : deriveBody h r (s.buf ++ (env.render h.baseHandler r).1) = Except.error e) :
    Handle h env r s =
      ⟨HRes.err e,
        ⟨"", s.out ++ ["MY: " ++ (s.buf ++ (env.render h.baseHandler r).1)], s.sent⟩,
        [Ev.lock, Ev.renderEv, Ev.writeEv, Ev.unlock]⟩ := by
  simp only [Handle, h1, h2, if_pos h3, h4]

theorem handle_nil_send (h : EHData) (env : Env) (r : Record) (s : HState)
    (b : String) (h1 : (env.render h.baseHandler r).2 = none)
    (h2 : env.writeErr ("MY: " ++ (s.buf ++ (env.render h.baseHandler r).1)) = none)
    (h3 : h.emailLevel ≤ r.level)
    (h4 : deriveBody h r (s.buf ++ (env.render h.baseHandler r).1) = Except.ok b)
    (h5 : h.sendEmail = none) :
    Handle h env r s =
      ⟨HRes.panicNilSend,
        ⟨"", s.out ++ ["MY: " ++ (s.buf ++ (env.render h.baseHandler r).1)], s.sent⟩,
        [Ev.lock, Ev.renderEv, Ev.writeEv, Ev.unlock]⟩ := by
  simp only [Handle, h1, h2, if_pos h3, h4, h5]

theorem handle_send (h : EHData) (env : Env) (r : Record) (s : HState)
    (b : String) (f : SendEmailFunc)
    (h1 : (env.render h.baseHandler r).2 = none)
    (h2 : env.writeErr ("MY: " ++ (s.buf ++ (env.render h.baseHandler r).1)) = none)
    (h3 : h.emailLevel ≤ r.level)
    (h4 : deriveBody h r (s.buf ++ (env.render h.baseHandler r).1) = Except.ok b)
    (h5 : h.sendEmail = some f) :
    Handle h env r s =
      ⟨(match f h.fromAddr h.toAddrs
            (deriveSubject h r (s.buf ++ (env.render h.baseHandler r).1)) b with
          | some e => HRes.err e
          | none => HRes.ok),
        ⟨"", s.out ++ ["MY: " ++ (s.buf ++ (env.render h.baseHandler r).1)],
          s.sent ++ [⟨h.fromAddr, h.toAddrs,
            deriveSubject h r (s.buf ++ (env.render h.baseHandler r).1), b⟩]⟩,
        [Ev.lock, Ev.renderEv, Ev.writeEv, Ev.sendEv, Ev.unlock]⟩ := by
  simp only [Handle, h1, h2, if_pos h3, h4, h5]
  cases f h.fromAddr h.toAddrs
      (deriveSubject h r (s.buf ++ (env.render h.baseHandler r).1)) b <;> rfl

theorem handle_out_write (h : EHData) (env : Env) (r : Record) (s : HState)
    (h1 : (env.render h.baseHandler r).2 = none) :
    (Handle h env r s).st.out =
      s.out ++ ["MY: " ++ (s.buf ++ (env.render h.baseHandler r).1)] := by
  rcases hw : env.writeErr ("MY: " ++ (s.buf ++ (env.render h.baseHandler r).1))
    with _ | e
  · by_cases hq : h.emailLevel ≤ r.level
    · rcases hb : deriveBody h r (s.buf ++ (env.render h.baseHandler r).1)
        with e2 | b
      · rw [handle_body_err h env r s e2 h1 hw hq hb]
      · rcases hs : h.sendEmail with _ | f
        · rw [handle_nil_send h env r s b h1 hw hq hb hs]
        · rw [handle_send h env r s b f h1 hw hq hb hs]
    · rw [handle_below h env r s h1 hw (not_le.mp hq)]
  · rw [handle_write_err h env r s e h1 hw]

theorem handle_buf_empty (h : EHData) (env : Env) (r : Record) (s : HState)
    (h1 : (env.render h.baseHandler r).2 = none) :
    (Handle h env r s).st.buf = "" := by
  rcases hw : env.writeErr ("MY: " ++ (s.buf ++ (env.render h.baseHandler r).1))
    with _ | e
  · by_cases hq : h.emailLevel ≤ r.level
    · rcases hb : deriveBody h r (s.buf ++ (env.render h.baseHandler r).1)
        with e2 | b
      · rw [handle_body_err h env r s e2 h1 hw hq hb]
      · rcases hs : h.sendEmail with _ | f
        · rw [handle_nil_send h env r s b h1 hw hq hb hs]
        · rw [handle_send h env r s b f h1 hw hq hb hs]
    · rw [handle_below h env r s h1 hw (not_le.mp hq)]
  · rw [handle_write_err h env r s e h1 hw]

theorem handle_sent_cases (h : EHData) (env : Env) (r : Record) (s : HState) :
    (Handle h env r s).st.sent = s.sent ∨
      ∃ em, (Handle h env r s).st.sent = s.sent ++ [em] := by
  rcases hrr : (env.render h.baseHandler r).2 with _ | e0
  · rcases hw : env.writeErr ("MY: " ++ (s.buf ++ (env.render h.baseHandler r).1))
      with _ | e
    · by_cases hq : h.emailLevel ≤ r.level
      · rcases hb : deriveBody h r (s.buf ++ (env.render h.baseHandler r).1)
          with e2 | b
        · rw [handle_body_err h env r s e2 hrr hw hq hb]
          exact Or.inl rfl
        · rcases hs : h.sendEmail with _ | f
          · rw [handle_nil_send h env r s b hrr hw hq hb hs]
            exact Or.inl rfl
          · rw [handle_send h env r s b f hrr hw hq hb hs]
            exact Or.inr ⟨_, rfl⟩
      · rw [handle_below h env r s hrr hw (not_le.mp hq)]
        exact Or.inl rfl
    · rw [handle_write_err h env r s e hrr hw]
      exact Or.inl rfl
  · rw [handle_render_err h env r s e0 hrr]
    exact Or.inl rfl

theorem handle_tr_cases (h : EHData) (env : Env) (r : Record) (s : HState) :
    (Handle h env r s).tr = [Ev.lock, Ev.renderEv, Ev.unlock] ∨
      (Handle h env r s).tr = [Ev.lock, Ev.renderEv, Ev.writeEv, Ev.unlock] ∨
      (Handle h env r s).tr =
        [Ev.lock, Ev.renderEv, Ev.writeEv, Ev.sendEv, Ev.unlock] := by
  rcases hrr : (env.render h.baseHandler r).2 with _ | e0
  · rcases hw : env.writeErr ("MY: " ++ (s.buf ++ (env.render h.baseHandler r).1))
      with _ | e
    · by_cases hq : h.emailLevel ≤ r.level
      · rcases hb : deriveBody h r (s.buf ++ (env.render h.baseHandler r).1)
          with e2 | b
        · rw [handle_body_err h env r s e2 hrr hw hq hb]
          exact Or.inr (Or.inl rfl)
        · rcases hs : h.sendEmail with _ | f
          · rw [handle_nil_send h env r s b hrr hw hq hb hs]
            exact Or.inr (Or.inl rfl)
          · rw [handle_send h env r s b f hrr hw hq hb hs]
            exact Or.inr (Or.inr rfl)
      · rw [handle_below h env r s hrr hw (not_le.mp hq)]
        exact Or.inr (Or.inl rfl)
    · rw [handle_write_err h env r s e hrr hw]
      exact Or.inr (Or.inl rfl)
  · rw [handle_render_err h env r s e0 hrr]
    exact Or.inl rfl

/-! ## The claims -/

/-- Claim C1. The spec says `Handle` writes the rendered text verbatim to
the output destination. The code instead executes
`fmt.Fprintf(h.out, "MY: %s", text)`: the single write performed for a
successfully rendered record carries a `"MY: "` prefix, so it is not the
rendered text — contradicting both the spec and the handler's own doc
comment ("writes log records in text or json to user-provided io.Writer").
The write itself does always happen when rendering succeeds. -/
theorem c1_write_not_verbatim :
    (Handle hText envHello rInfo s0).st.out = ["MY: hello\n"] ∧
      "MY: hello\n" ≠ ("hello\n" : String) :=
  ⟨rfl, by decide⟩

/-- Claim C2. The spec says that after a failed `Mailer` construction the
returned handler is still usable, with email delivery failing (an error)
on qualifying records. In the code, the failure path of `NewHandler`
returns before `handler.sendEmail` is assigned, leaving it nil; the first
qualifying record then makes `Handle` invoke the nil function value, a Go
runtime panic rather than an error. -/
theorem c2_nil_send_panics :
    (NewHandler optsNoSend newClientStub transportStub).2 =
        some "dial: no host set" ∧
      (NewHandler optsNoSend newClientStub transportStub).1.sendEmail.isNone
        = true ∧
      (Handle (NewHandler optsNoSend newClientStub transportStub).1
          envHello rError s0).res = HRes.panicNilSend :=
  ⟨rfl, rfl, rfl⟩

/-- Counterexample to claim C3 as stated: a record at the email threshold
(so it qualifies) whose default JSON body derivation fails; the delivery
function is never invoked, refuting "invoked if and only if the level
reaches the threshold" and "for qualifying records exactly one delivery
attempt is made". -/
theorem c3_qualifying_without_delivery :
    hJson.emailLevel ≤ rError.level ∧ hJson.sendEmail.isSome = true ∧
      (Handle hJson envNotJson rError s0).st.sent = [] :=
  ⟨by decide, rfl, rfl⟩

/-- Claim C3, amended: the delivery function is invoked only for records
whose level reaches the email threshold — below the threshold it is never
invoked while the output stream still receives exactly one write per
successful render — and a qualifying record produces exactly one delivery
attempt provided the output write and the body derivation also succeed
(a write error or JSON pretty-printing error skips delivery); in every
case at most one delivery attempt is made. -/
theorem c3_gate (h : EHData) (env : Env) (r : Record) (s : HState) :
    (r.level < h.emailLevel → (Handle h env r s).st.sent = s.sent) ∧
      ((env.render h.baseHandler r).2 = none →
        (Handle h env r s).st.out =
          s.out ++ ["MY: " ++ (s.buf ++ (env.render h.baseHandler r).1)]) ∧
      (∀ f b, h.emailLevel ≤ r.level →
        (env.render h.baseHandler r).2 = none →
        env.writeErr ("MY: " ++ (s.buf ++ (env.render h.baseHandler r).1)) = none →
        h.sendEmail = some f →
        deriveBody h r (s.buf ++ (env.render h.baseHandler r).1) = Except.ok b →
        (Handle h env r s).st.sent = s.sent ++
          [⟨h.fromAddr, h.toAddrs,
            deriveSubject h r (s.buf ++ (env.render h.baseHandler r).1), b⟩]) ∧
      ((Handle h env r s).st.sent = s.sent ∨
        ∃ em, (Handle h env r s).st.sent = s.sent ++ [em]) := by
  refine ⟨?_, handle_out_write h env r s, ?_, handle_sent_cases h env r s⟩
  · intro hlt
    rcases hrr : (env.render h.baseHandler r).2 with _ | e
    · rcases hw : env.writeErr ("MY: " ++ (s.buf ++ (env.render h.baseHandler r).1))
        with _ | e2
      · rw [handle_below h env r s hrr hw hlt]
      · rw [handle_write_err h env r s e2 hrr hw]
    · rw [handle_render_err h env r s e hrr]
  · intro f b h3 h1 h2 h5 h4
    rw [handle_send h env r s b f h1 h2 h3 h4 h5]

/-- Witness for the amended C3: an `INFO` record below the threshold is
written once but not delivered; an `ERROR` record at the threshold causes
exactly one delivery attempt. -/
theorem c3_gate_witness :
    (Handle hText envHello rInfo s0).st.sent = [] ∧
      (Handle hText envHello rInfo s0).st.out = ["MY: hello\n"] ∧
      (Handle hText envHello rError s0).st.sent =
        [⟨"from@example.com", ["one@example.com", "two@example.com"],
          "ERROR", "hello\n"⟩] := by
  refine ⟨(c3_gate hText envHello rInfo s0).1 (by decide), ?_, ?_⟩
  · exact ((c3_gate hText envHello rInfo s0).2.1 rfl).trans rfl
  · exact ((c3_gate hText envHello rError s0).2.2.1 sendOK "hello\n"
      (by decide) rfl rfl rfl rfl).trans rfl

/-- Claim C4, confirmed. For a qualifying record with no `GetSubject`
override the subject is the string form of the record's level
(`slog.Level.String`), and with no `GetBody` override the body is the
rendered text in text format, or its 4-space-indented re-serialization
(`prettifyJSON`, i.e. `json.Indent` with indent `"    "`) in JSON
format. -/
theorem c4_default_subject_body (h : EHData) (env : Env) (r : Record)
    (s : HState) (f : SendEmailFunc)
    (hsub : h.getSubject = none) (hbody : h.getBody = none)
    (h1 : (env.render h.baseHandler r).2 = none)
    (h2 : env.writeErr ("MY: " ++ (s.buf ++ (env.render h.baseHandler r).1)) = none)
    (h3 : h.emailLevel ≤ r.level) (h5 : h.sendEmail = some f) :
    (h.json = false →
      (Handle h env r s).st.sent = s.sent ++
        [⟨h.fromAddr, h.toAddrs, levelString r.level,
          s.buf ++ (env.render h.baseHandler r).1⟩]) ∧
    (∀ b, h.json = true →
      prettifyJSON (s.buf ++ (env.render h.baseHandler r).1) = Except.ok b →
      (Handle h env r s).st.sent = s.sent ++
        [⟨h.fromAddr, h.toAddrs, levelString r.level, b⟩]) := by
  constructor
  · intro hj
    have hb : deriveBody h r (s.buf ++ (env.render h.baseHandler r).1) =
        Except.ok (s.buf ++ (env.render h.baseHandler r).1) := by
      simp [deriveBody, hbody, hj]
    rw [handle_send h env r s _ f h1 h2 h3 hb h5]
    simp [deriveSubject, hsub]
  · intro b hj hp
    have hb : deriveBody h r (s.buf ++ (env.render h.baseHandler r).1) =
        Except.ok b := by
      simp [deriveBody, hbody, hj, hp]
    rw [handle_send h env r s b f h1 h2 h3 hb h5]
    simp [deriveSubject, hsub]

/-- Witness for C4 on the spec's scenario: threshold `ERROR`, JSON format,
record level `ERROR`, rendered text the JSON `{"msg":"db down"}` — the
subject defaults to `"ERROR"` and the body to the 4-space-indented
re-serialization. -/
theorem c4_default_subject_body_witness :
    (Handle hJson envDb rError s0).st.sent =
      [⟨"from@example.com", ["one@example.com", "two@example.com"], "ERROR",
        "\x7b\n    \"msg\": \"db down\"\n\x7d"⟩] := by
  have h := (c4_default_subject_body hJson envDb rError s0 sendOK
      rfl rfl rfl rfl (by decide) rfl).2
      "\x7b\n    \"msg\": \"db down\"\n\x7d" rfl (by rfl)
  exact h.trans rfl

/-- Claim C5, confirmed. For a qualifying record in JSON format with no
`GetBody` override whose rendered text is not valid JSON, `Handle` returns
the pretty-printing error to its caller and the delivery function is not
invoked: no silent swallowing, no fallback to raw text. -/
theorem c5_prettify_error_surfaces (h : EHData) (env : Env) (r : Record)
    (s : HState) (e : GoError)
    (hbody : h.getBody = none) (hjson : h.json = true)
    (h1 : (env.render h.baseHandler r).2 = none)
    (h2 : env.writeErr ("MY: " ++ (s.buf ++ (env.render h.baseHandler r).1)) = none)
    (h3 : h.emailLevel ≤ r.level)
    (hp : prettifyJSON (s.buf ++ (env.render h.baseHandler r).1) =
      Except.error e) :
    (Handle h env r s).res = HRes.err e ∧
      (Handle h env r s).st.sent = s.sent := by
  have hb : deriveBody h r (s.buf ++ (env.render h.baseHandler r).1) =
      Except.error e := by
    simp [deriveBody, hbody, hjson, hp]
  rw [handle_body_err h env r s e h1 h2 h3 hb]
  exact ⟨rfl, rfl⟩

/-- Witness for C5: a qualifying `ERROR` record in JSON mode whose
rendered text is `not json` — `Handle` errors and nothing is sent. -/
theorem c5_prettify_error_surfaces_witness :
    (Handle hJson envNotJson rError s0).res = HRes.err "invalid JSON" ∧
      (Handle hJson envNotJson rError s0).st.sent = [] :=
  c5_prettify_error_surfaces hJson envNotJson rError s0 "invalid JSON"
    rfl rfl rfl rfl (by decide) (by rfl)

/-- Claim C6, confirmed. If the render step fails, `Handle` returns that
error with nothing written and nothing sent; if the render succeeds but
the output write fails, `Handle` returns that error and nothing is sent:
no email dispatch without a preceding successful render and write. -/
theorem c6_early_error_skips_email (h : EHData) (env : Env) (r : Record)
    (s : HState) (e : GoError) :
    ((env.render h.baseHandler r).2 = some e →
      (Handle h env r s).res = HRes.err e ∧
        (Handle h env r s).st.sent = s.sent ∧
        (Handle h env r s).st.out = s.out) ∧
    ((env.render h.baseHandler r).2 = none →
      env.writeErr ("MY: " ++ (s.buf ++ (env.render h.baseHandler r).1)) = some e →
      (Handle h env r s).res = HRes.err e ∧
        (Handle h env r s).st.sent = s.sent) := by
  constructor
  · intro h1
    rw [handle_render_err h env r s e h1]
    exact ⟨rfl, rfl, rfl⟩
  · intro h1 h2
    rw [handle_write_err h env r s e h1 h2]
    exact ⟨rfl, rfl⟩

/-- Witness for C6: a failing render returns its error with nothing
written or sent; a failing output write returns its error with nothing
sent. -/
theorem c6_early_error_skips_email_witness :
    ((Handle hText envMixed rErrorBad s0).res = HRes.err "render failed" ∧
      (Handle hText envMixed rErrorBad s0).st.sent = [] ∧
      (Handle hText envMixed rErrorBad s0).st.out = []) ∧
    ((Handle hText envWriteFail rInfo s0).res = HRes.err "broken pipe" ∧
      (Handle hText envWriteFail rInfo s0).st.sent = []) :=
  ⟨(c6_early_error_skips_email hText envMixed rErrorBad s0 "render failed").1
      rfl,
    (c6_early_error_skips_email hText envWriteFail rInfo s0 "broken pipe").2
      rfl rfl⟩

/-- Claim C7, confirmed. For a qualifying record, once render and write
succeeded and the body was derived, `Handle` invokes the delivery
function; if that function returns an error, `Handle` returns that exact
error and the write already performed on the output stream remains; if it
returns nil, `Handle` returns nil. (The user-supplied delivery function of
the custom path is the `SendEmail` option installed by `NewHandler`.) -/
theorem c7_delivery_result (h : EHData) (env : Env) (r : Record) (s : HState)
    (f : SendEmailFunc) (b : String) (e : GoError)
    (h5 : h.sendEmail = some f)
    (h1 : (env.render h.baseHandler r).2 = none)
    (h2 : env.writeErr ("MY: " ++ (s.buf ++ (env.render h.baseHandler r).1)) = none)
    (h3 : h.emailLevel ≤ r.level)
    (h4 : deriveBody h r (s.buf ++ (env.render h.baseHandler r).1) = Except.ok b) :
    (f h.fromAddr h.toAddrs
        (deriveSubject h r (s.buf ++ (env.render h.baseHandler r).1)) b = some e →
      (Handle h env r s).res = HRes.err e ∧
        (Handle h env r s).st.out =
          s.out ++ ["MY: " ++ (s.buf ++ (env.render h.baseHandler r).1)]) ∧
    (f h.fromAddr h.toAddrs
        (deriveSubject h r (s.buf ++ (env.render h.baseHandler r).1)) b = none →
      (Handle h env r s).res = HRes.ok) := by
  rw [handle_send h env r s b f h1 h2 h3 h4 h5]
  constructor
  · intro hf
    exact ⟨by simp [hf], rfl⟩
  · intro hf
    simp [hf]

/-- Witness for C7: a delivery function failing with `smtp down` makes
`Handle` return exactly that error while the output write stays; the
same configuration with a succeeding delivery function returns nil. -/
theorem c7_delivery_result_witness :
    ((Handle hTextFail envHello rError s0).res = HRes.err "smtp down" ∧
      (Handle hTextFail envHello rError s0).st.out = ["MY: hello\n"]) ∧
    (Handle hText envHello rError s0).res = HRes.ok := by
  refine ⟨?_, ?_⟩
  · exact ((c7_delivery_result hTextFail envHello rError s0 sendFail "hello\n"
      "smtp down" rfl rfl rfl (by decide) rfl).1 rfl).imp id (fun ho => ho.trans rfl)
  · exact (c7_delivery_result hText envHello rError s0 sendOK "hello\n"
      "smtp down" rfl rfl rfl (by decide) rfl).2 rfl

/-- Counterexample to claim C8 as stated: in the code `Handle` takes the
mutex with `defer h.mu.Unlock()`, so a qualifying record produces the
event trace lock–render–write–send–unlock, with the delivery call strictly
between the acquire and the release: the lock IS held while the email
transport executes. -/
theorem c8_send_under_lock :
    ¬ sendLockFree (Handle hText envHello rError s0).tr := by
  unfold sendLockFree
  decide

/-- Claim C8, amended: the render-buffer lock is acquired at the start of
`Handle` and released only when `Handle` returns (the deferred unlock is
the last event of every trace), and whenever the delivery function is
invoked, that invocation happens between the acquire and the release —
the lock is held during render, output write AND email transport, so
concurrent log calls are serialized behind mail I/O. -/
theorem c8_lock_spans_whole_call (h : EHData) (env : Env) (r : Record)
    (s : HState) :
    (Handle h env r s).tr.head? = some Ev.lock ∧
      (Handle h env r s).tr.getLast? = some Ev.unlock ∧
      (Ev.sendEv ∈ (Handle h env r s).tr →
        (Handle h env r s).tr =
          [Ev.lock, Ev.renderEv, Ev.writeEv, Ev.sendEv, Ev.unlock]) ∧
      (Ev.sendEv ∈ (Handle h env r s).tr →
        ¬ sendLockFree (Handle h env r s).tr) := by
  rcases handle_tr_cases h env r s with ht | ht | ht <;> rw [ht] <;>
      refine ⟨rfl, rfl, fun hm => ?_, fun hm => ?_⟩
  · exact absurd hm (by decide)
  · exact absurd hm (by decide)
  · exact absurd hm (by decide)
  · exact absurd hm (by decide)
  · rfl
  · unfold sendLockFree
    decide

/-- Witness for the amended C8: a qualifying record's trace is exactly
lock–render–write–send–unlock, and it violates the lock-free-send
discipline. -/
theorem c8_lock_spans_whole_call_witness :
    (Handle hText envHello rError s0).tr =
        [Ev.lock, Ev.renderEv, Ev.writeEv, Ev.sendEv, Ev.unlock] ∧
      ¬ sendLockFree (Handle hText envHello rError s0).tr := by
  have t := c8_lock_spans_whole_call hText envHello rError s0
  exact ⟨t.2.2.1 (by decide), t.2.2.2 (by decide)⟩

/-- Claim C9, confirmed. `WithAttrs` and `WithGroup` mutate
`h.baseHandler` in place through the receiver pointer and return that very
pointer: the returned handler and the original are aliases, every other
heap cell is untouched, and a record subsequently handled through the
original pointer is handled with the rebound base renderer. -/
theorem c9_scoping_mutates_in_place (hp : HHeap) (p : Ptr) (attrs : List Attr)
    (g : String) (q : Ptr) (env : Env) (r : Record) (s : HState) :
    (WithAttrsGo hp p attrs).1 = p ∧
      ((WithAttrsGo hp p attrs).2 q =
        if q = p then
          { hp p with baseHandler := (hp p).baseHandler.withAttrs attrs }
        else hp q) ∧
      Handle ((WithAttrsGo hp p attrs).2 ((WithAttrsGo hp p attrs).1)) env r s =
        Handle { hp p with baseHandler := (hp p).baseHandler.withAttrs attrs }
          env r s ∧
      (WithGroupGo hp p g).1 = p ∧
      ((WithGroupGo hp p g).2 q =
        if q = p then
          { hp p with baseHandler := (hp p).baseHandler.withGroup g }
        else hp q) := by
  refine ⟨rfl, rfl, ?_, rfl, rfl⟩
  simp [WithAttrsGo]

/-- Claim C10, confirmed. When the render step succeeds the shared buffer
is reset to empty before `Handle` proceeds; when the render step fails,
`Handle` returns without resetting, so the bytes left behind are prepended
to the text of the next `Handle` call (visible in that call's output
write). -/
theorem c10_buffer_reset (h : EHData) (env : Env) (r r2 : Record) (s : HState)
    (e : GoError) :
    ((env.render h.baseHandler r).2 = none → (Handle h env r s).st.buf = "") ∧
      ((env.render h.baseHandler r).2 = some e →
        (Handle h env r s).st.buf = s.buf ++ (env.render h.baseHandler r).1 ∧
          ((env.render h.baseHandler r2).2 = none →
            (Handle h env r2 (Handle h env r s).st).st.out =
              s.out ++ ["MY: " ++ ((s.buf ++ (env.render h.baseHandler r).1) ++
                (env.render h.baseHandler r2).1)])) := by
  constructor
  · exact handle_buf_empty h env r s
  · intro h1
    rw [handle_render_err h env r s e h1]
    refine ⟨rfl, ?_⟩
    intro h2
    exact handle_out_write h env r2 _ h2

/-- Witness for C10: a successful call leaves an empty buffer; a failed
render leaves `PART` in the buffer, and the next successful call writes
`MY: PARThello\n` — the leftover prepended to its rendered text. -/
theorem c10_buffer_reset_witness :
    (Handle hText envHello rInfo s0).st.buf = "" ∧
      (Handle hText envMixed rErrorBad s0).st.buf = "PART" ∧
      (Handle hText envMixed rInfo (Handle hText envMixed rErrorBad s0).st).st.out
        = ["MY: PARThello\n"] := by
  refine ⟨(c10_buffer_reset hText envHello rInfo rInfo s0 "e").1 rfl, ?_, ?_⟩
  · exact ((c10_buffer_reset hText envMixed rErrorBad rInfo s0
      "render failed").2 rfl).1.trans rfl
  · exact (((c10_buffer_reset hText envMixed rErrorBad rInfo s0
      "render failed").2 rfl).2 rfl).trans rfl

end Slogemail
